import Mathlib

/-!
Shallow embedding of the dfs-society-beta data-synchronization layer.

The embedded source files:
* `src/server/nba/db/store_projections.js` — `parseISODatePreservingTimezone`,
  `storeProjections` (batch upsert of projections keyed by `projectionId`);
* `src/server/nba/db/store_players.js` — `storePlayers` (batch upsert keyed
  by `playerID`);
* `src/unnamed/part_000` (`storeGameStats`) — batch upsert of game stat lines
  keyed by the composite `(gameId, playerId)`, with `parseFloat` coercions;
* `src/server/nba/db/delete_old_projections.js` — `deleteOldProjections`;
* `src/server/utils/nba/db/query_projections.js` (the odds updater file) —
  `updateProjectionsWithOdds` and the CLI exit-code mapping.

Stores are modelled as lists of records; the Prisma `upsert` / `updateMany` /
`deleteMany` primitives are modelled as pure functions on such lists.  The
database's unique constraints (schema.prisma: `projection_id`,
`playerID`, `@@unique([gameId, playerId])`) appear as `≤ 1 matching record`
hypotheses on starting states where a theorem needs them.
-/

/-! ### JavaScript value carriers -/

/-- Result of a JavaScript numeric coercion: either a finite number or `NaN`.
(`parseFloat` never yields `null`/`undefined`.) -/
inductive JsNum where
  | nan : JsNum
  | num : ℚ → JsNum
deriving DecidableEq, Repr

/-- A JavaScript `Date` value as produced by the embedded code: a definite
absolute instant (epoch seconds), the engine's best-effort generic parse of an
unrecognized string (`new Date(s)`), or the current time (`new Date()`). -/
inductive JsDate where
  | instant : Int → JsDate
  | generic : String → JsDate
  | currentTime : JsDate
deriving DecidableEq, Repr

def isDigitChar (c : Char) : Bool := '0' ≤ c && c ≤ '9'

def digitsVal (l : List Char) : Nat :=
  l.foldl (fun a c => a * 10 + (c.toNat - 48)) 0

/-- Model of the ECMAScript `parseFloat` builtin on a list of characters,
restricted to plain decimal literals (optional sign, integer digits, optional
fraction digits; any trailing junk is ignored, as in JS).  If no digits can be
consumed the result is `NaN`. -/
def parseFloatChars (l : List Char) : JsNum :=
  let sr : Int × List Char :=
    match l with
    | '-' :: r => (-1, r)
    | '+' :: r => (1, r)
    | r => (1, r)
  let intDigits := sr.2.takeWhile isDigitChar
  let rest := sr.2.dropWhile isDigitChar
  let fracDigits :=
    match rest with
    | '.' :: r => r.takeWhile isDigitChar
    | _ => []
  if intDigits.isEmpty && fracDigits.isEmpty then JsNum.nan
  else
    JsNum.num (Rat.divInt
      (sr.1 * ((digitsVal intDigits : Int) * Int.pow 10 fracDigits.length +
        (digitsVal fracDigits : Int)))
      (Int.pow 10 fracDigits.length))

/-- `parseFloat` applied to a possibly-absent JSON field: an absent field is
`undefined`, which `parseFloat` coerces to the string "undefined" → `NaN`. -/
def parseFloat : Option String → JsNum
  | none => JsNum.nan
  | some s => parseFloatChars s.data

/-- The JavaScript pattern `x || null` applied to a coerced number: falsy
numbers (`NaN` and `0`) become `null` (`none`); anything else is kept. -/
def jsNumOrNull : JsNum → Option ℚ
  | JsNum.nan => none
  | JsNum.num q => if q = 0 then none else some q

/-! ### Proleptic Gregorian calendar arithmetic (the maths behind `Date.UTC`) -/

/-- Day number (days since 1970-01-01) of the civil date `y-m-d`, for
`m ∈ [1,12]`; the standard era/year-of-era computation. -/
def daysFromCivil (y m d : Int) : Int :=
  let y2 := if m ≤ 2 then y - 1 else y
  let era := y2 / 400
  let yoe := y2 - era * 400
  let mp := (m + 9) % 12
  let doy := (153 * mp + 2) / 5 + d - 1
  let doe := yoe * 365 + yoe / 4 - yoe / 100 + doy
  era * 146097 + doe - 719468

/-- Inverse of `daysFromCivil`: the civil date `(y, m, d)` of a day number. -/
def civilFromDays (z : Int) : Int × Int × Int :=
  let z2 := z + 719468
  let era := z2 / 146097
  let doe := z2 - era * 146097
  let yoe := (doe - doe / 1460 + doe / 36524 - doe / 146096) / 365
  let y := yoe + era * 400
  let doy := doe - (365 * yoe + yoe / 4 - yoe / 100)
  let mp := (5 * doy + 2) / 153
  let d := doy - (153 * mp + 2) / 5 + 1
  let m := mp + (if mp < 10 then 3 else -9)
  (if m ≤ 2 then y + 1 else y, m, d)

def isLeapYear (y : Int) : Bool :=
  y % 4 = 0 && (y % 100 ≠ 0 || y % 400 = 0)

/-- Number of days in month `m` of year `y` (Gregorian). -/
def daysInMonth (y m : Int) : Int :=
  if m = 2 then (if isLeapYear y then 29 else 28)
  else if m = 4 ∨ m = 6 ∨ m = 9 ∨ m = 11 then 30
  else 31

/-- ECMAScript `MakeDay(year, month, date)` with a 0-indexed `month` that may
lie outside `[0,11]` (out-of-range months carry into the year, per spec). -/
def jsMakeDay (year month0 d : Int) : Int :=
  daysFromCivil (year + month0 / 12) (month0 % 12 + 1) 1 + (d - 1)

/-- `Date.UTC(year, month0, day, hour, minute, second)` as epoch seconds. -/
def jsDateUTCsec (y month0 d h mi s : Int) : Int :=
  jsMakeDay y month0 d * 86400 + h * 3600 + mi * 60 + s

/-- Epoch seconds of components read directly as a UTC wall clock (the
spec's "treat the numeric components as if they were UTC"),
for a 1-indexed month. -/
def utcEpochOfComponents (y m d h mi s : Int) : Int :=
  daysFromCivil y m d * 86400 + h * 3600 + mi * 60 + s

/-- Wall-clock components `(y, m, d, h, mi, s)` of the instant `t` (epoch
seconds) displayed in a fixed UTC offset of `tzMin` minutes. -/
def wallClockAtOffset (tzMin t : Int) : Int × Int × Int × Int × Int × Int :=
  let lt := t + tzMin * 60
  let c := civilFromDays (lt / 86400)
  let s := lt % 86400
  (c.1, c.2.1, c.2.2, s / 3600, s % 3600 / 60, s % 60)

/-! ### The date normalizer (`parseISODatePreservingTimezone`) -/

/-- The seven values extracted by the regex
`^(\d{4})-(\d{2})-(\d{2})T(\d{2}):(\d{2}):(\d{2})([+-]\d{2}:\d{2})$`,
with the offset already folded to signed minutes as in the source
(`tzSign * (tzHours * 60 + tzMinutes)`). -/
structure ISOComponents where
  year : Int
  month : Int
  day : Int
  hour : Int
  minute : Int
  second : Int
  tzOffsetMinutes : Int
deriving DecidableEq, Repr

def digitVal (c : Char) : Int := (c.toNat : Int) - 48

/-- The regex match of `store_projections.js` line 17: the string must be
exactly `YYYY-MM-DDTHH:MM:SS±HH:MM` (fixed width, digits at digit positions,
literal separators, sign `+` or `-`). -/
def matchISO (s : String) : Option ISOComponents :=
  match s.data with
  | [y1, y2, y3, y4, c1, mo1, mo2, c2, d1, d2, c3, h1, h2, c4, mi1, mi2, c5,
     s1, s2, sg, o1, o2, c6, o3, o4] =>
    if c1 = '-' && c2 = '-' && c3 = 'T' && c4 = ':' && c5 = ':' && c6 = ':' &&
       (sg = '+' || sg = '-') &&
       ([y1, y2, y3, y4, mo1, mo2, d1, d2, h1, h2, mi1, mi2, s1, s2,
         o1, o2, o3, o4].all isDigitChar) then
      some
        { year := ((digitVal y1 * 10 + digitVal y2) * 10 + digitVal y3) * 10 +
            digitVal y4
          month := digitVal mo1 * 10 + digitVal mo2
          day := digitVal d1 * 10 + digitVal d2
          hour := digitVal h1 * 10 + digitVal h2
          minute := digitVal mi1 * 10 + digitVal mi2
          second := digitVal s1 * 10 + digitVal s2
          tzOffsetMinutes := (if sg = '-' then -1 else 1) *
            ((digitVal o1 * 10 + digitVal o2) * 60 +
             (digitVal o3 * 10 + digitVal o4)) }
    else none
  | _ => none

/-- The date value returned by the normalizer together with whether the
`console.warn` fallback branch was taken. -/
structure ParseOutcome where
  date : JsDate
  warned : Bool
deriving DecidableEq, Repr

/-- `parseISODatePreservingTimezone` (store_projections.js lines 7–53).
Empty (falsy) input returns `new Date()`; a non-matching string logs a warning
and falls back to `new Date(isoString)`; a matching string builds
`Date.UTC(year, month-1, day, hour, minute, second)` and then subtracts the
offset minutes (`setUTCMinutes(getUTCMinutes() - tzOffsetMinutes)`). -/
def parseISODatePreservingTimezone (isoString : String) : ParseOutcome :=
  if isoString = "" then ⟨JsDate.currentTime, false⟩
  else
    match matchISO isoString with
    | none => ⟨JsDate.generic isoString, true⟩
    | some c =>
      ⟨JsDate.instant
        (jsDateUTCsec c.year (c.month - 1) c.day c.hour c.minute c.second -
          c.tzOffsetMinutes * 60), false⟩

/-! ### Stored records (prisma/schema.prisma)

The system-managed audit columns (`created_at` set once, `updated_at`
refreshed by Prisma on every write) are not data the embedded scripts read or
write, so they are not part of the record model. -/

/-- A row of the `projections` table. -/
structure Projection where
  projectionId : String
  playerName : String
  team : String
  position : String
  statType : String
  lineScore : ℚ
  average : Option ℚ
  maxValue : Option ℚ
  gameId : String
  startTime : Int
  status : String
  opponent : Option String
  imageUrl : Option String
  oddsType : Option String
  homeTeam : Option String
  awayTeam : Option String
  homeSpread : Option ℚ
  awaySpread : Option ℚ
  totalOver : Option ℚ
  totalUnder : Option ℚ
  homeMoneyline : Option String
  awayMoneyline : Option String
  oddsProvider : Option String
  oddsLastUpdated : Option Int
deriving DecidableEq, Repr

/-- The fields of one record of the projections JSON file that
`storeProjections` reads.  `startTime` is the resolved absolute instant of
the `parseISODatePreservingTimezone` result (the value the DateTime column
stores). -/
structure ProjInput where
  projectionId : String
  playerName : String
  team : String
  position : String
  statType : String
  lineScore : ℚ
  average : Option ℚ
  maxValue : Option ℚ
  gameId : String
  startTime : Int
  status : String
  description : Option String
  imageUrl : Option String
  oddsType : Option String
deriving DecidableEq, Repr

/-- A row of the `nba_players` table; also the shape of one record of the
players JSON file (`storePlayers` reads exactly these five fields). -/
structure NbaPlayer where
  playerID : String
  position : String
  team : String
  playerName : String
  teamID : String
deriving DecidableEq, Repr

/-- The raw per-game JSON object consumed by `storeGameStats`.  Fields the
script feeds to `parseFloat` are `Option String` (`none` models an absent
property, i.e. JS `undefined`). -/
structure RawGameStat where
  longName : String
  team : String
  teamAbv : String
  teamID : String
  game_date : String
  opponent : String
  is_home : Bool
  pts : Option String
  reb : Option String
  OffReb : Option String
  DefReb : Option String
  ast : Option String
  stl : Option String
  blk : Option String
  TOV : Option String
  PF : Option String
  tech : Option String
  plusMinus : String
  mins : String
  fgm : Option String
  fga : Option String
  fgp : String
  tptfgm : Option String
  tptfga : Option String
  tptfgp : String
  ftm : Option String
  fta : Option String
  ftp : String
  fantasyPoints : String
deriving DecidableEq, Repr

/-- The `gameStatData` object built by `storeGameStats` (the payload of both
the `update` and the `create` block).  Numeric columns carry `Option JsNum`:
`none` models a null/missing value, `some` a supplied number (possibly
`NaN`). -/
structure GameStatData where
  gameId : String
  playerId : String
  playerName : String
  team : String
  teamAbbreviation : String
  teamId : String
  gameDate : JsDate
  opponent : String
  isHome : Bool
  points : Option JsNum
  rebounds : Option JsNum
  offensiveRebounds : Option JsNum
  defensiveRebounds : Option JsNum
  assists : Option JsNum
  steals : Option JsNum
  blocks : Option JsNum
  turnovers : Option JsNum
  personalFouls : Option JsNum
  technicalFouls : Option JsNum
  plusMinus : String
  minutesPlayed : String
  fieldGoalsMade : Option JsNum
  fieldGoalsAttempted : Option JsNum
  fieldGoalPercentage : String
  threePointersMade : Option JsNum
  threePointersAttempted : Option JsNum
  threePointPercentage : String
  freeThrowsMade : Option JsNum
  freeThrowsAttempted : Option JsNum
  freeThrowPercentage : String
  fantasyPoints : String
deriving DecidableEq, Repr

/-- A row of the `nba_game_stats` table: the payload fields plus the surrogate
`id` (`@default(uuid())`, but `storeGameStats` always supplies
`gameId_playerId` on create). -/
structure NbaGameStats where
  id : String
  data : GameStatData
deriving DecidableEq, Repr

/-- `gameStatData` as built in `storeGameStats` (src/unnamed/part_000 lines
33–67): string pass-through fields, `new Date(gameStat.game_date)` (a generic
engine parse), and explicit `parseFloat` coercion of the numeric fields. -/
def gameStatData (gameId playerId : String) (g : RawGameStat) : GameStatData :=
  { gameId := gameId
    playerId := playerId
    playerName := g.longName
    team := g.team
    teamAbbreviation := g.teamAbv
    teamId := g.teamID
    gameDate := JsDate.generic g.game_date
    opponent := g.opponent
    isHome := g.is_home
    points := some (parseFloat g.pts)
    rebounds := some (parseFloat g.reb)
    offensiveRebounds := some (parseFloat g.OffReb)
    defensiveRebounds := some (parseFloat g.DefReb)
    assists := some (parseFloat g.ast)
    steals := some (parseFloat g.stl)
    blocks := some (parseFloat g.blk)
    turnovers := some (parseFloat g.TOV)
    personalFouls := some (parseFloat g.PF)
    technicalFouls := some (parseFloat g.tech)
    plusMinus := g.plusMinus
    minutesPlayed := g.mins
    fieldGoalsMade := some (parseFloat g.fgm)
    fieldGoalsAttempted := some (parseFloat g.fga)
    fieldGoalPercentage := g.fgp
    threePointersMade := some (parseFloat g.tptfgm)
    threePointersAttempted := some (parseFloat g.tptfga)
    threePointPercentage := g.tptfgp
    freeThrowsMade := some (parseFloat g.ftm)
    freeThrowsAttempted := some (parseFloat g.fta)
    freeThrowPercentage := g.ftp
    fantasyPoints := g.fantasyPoints }

/-! ### The Prisma primitives on list-modelled tables -/

/-- Prisma `upsert`: if any row satisfies the `where` clause, apply the
`update` data to each matching row (the unique constraint keeps it to at most
one); otherwise append the row built from the `create` data. -/
def prismaUpsert {α : Type} (whereMatch : α → Bool) (upd : α → α) (create : α)
    (store : List α) : List α :=
  if store.any whereMatch then
    store.map (fun q => if whereMatch q then upd q else q)
  else store ++ [create]

/-- The `update` block of `prisma.projection.upsert` (store_projections.js
lines 113–127): overwrites the listed non-key fields from the input; does not
touch `projectionId` or any odds field. -/
def projectionUpdateData (p : ProjInput) (q : Projection) : Projection :=
  { q with
    playerName := p.playerName
    team := p.team
    position := p.position
    statType := p.statType
    lineScore := p.lineScore
    average := p.average
    maxValue := p.maxValue
    gameId := p.gameId
    startTime := p.startTime
    status := p.status
    opponent := p.description
    imageUrl := p.imageUrl
    oddsType := p.oddsType }

/-- The `create` block (lines 128–143): key plus the same fields; the odds
columns are not supplied, so they are created null. -/
def projectionCreateData (p : ProjInput) : Projection :=
  { projectionId := p.projectionId
    playerName := p.playerName
    team := p.team
    position := p.position
    statType := p.statType
    lineScore := p.lineScore
    average := p.average
    maxValue := p.maxValue
    gameId := p.gameId
    startTime := p.startTime
    status := p.status
    opponent := p.description
    imageUrl := p.imageUrl
    oddsType := p.oddsType
    homeTeam := none
    awayTeam := none
    homeSpread := none
    awaySpread := none
    totalOver := none
    totalUnder := none
    homeMoneyline := none
    awayMoneyline := none
    oddsProvider := none
    oddsLastUpdated := none }

/-- `prisma.projection.upsert` keyed by `projectionId` (lines 109–144). -/
def projectionUpsert (store : List Projection) (p : ProjInput) :
    List Projection :=
  prismaUpsert (fun q => q.projectionId == p.projectionId)
    (projectionUpdateData p) (projectionCreateData p) store

/-- The `update` block of `prisma.nbaPlayer.upsert` (store_players.js lines
33–38): the four non-key fields. -/
def nbaPlayerUpdateData (p q : NbaPlayer) : NbaPlayer :=
  { q with
    position := p.position
    team := p.team
    playerName := p.playerName
    teamID := p.teamID }

/-- The `create` block (lines 39–45): the key plus the same four fields. -/
def nbaPlayerCreateData (p : NbaPlayer) : NbaPlayer :=
  { playerID := p.playerID
    position := p.position
    team := p.team
    playerName := p.playerName
    teamID := p.teamID }

/-- `prisma.nbaPlayer.upsert` keyed by `playerID` (lines 30–47). -/
def nbaPlayerUpsert (store : List NbaPlayer) (p : NbaPlayer) :
    List NbaPlayer :=
  prismaUpsert (fun q => q.playerID == p.playerID)
    (nbaPlayerUpdateData p) (nbaPlayerCreateData p) store

/-- The `update` argument of `prisma.nbaGameStats.upsert` is the whole
`gameStatData` object (which re-states `gameId`/`playerId` with the values of
the `where` key); the surrogate `id` is not in it, so it is kept. -/
def gameStatUpdateData (payload : GameStatData) (q : NbaGameStats) :
    NbaGameStats :=
  { id := q.id, data := payload }

/-- The `create` argument: `{...gameStatData, id := gameId_playerId}`. -/
def gameStatCreateData (payload : GameStatData) : NbaGameStats :=
  { id := payload.gameId ++ "_" ++ payload.playerId, data := payload }

/-- `prisma.nbaGameStats.upsert` keyed by the composite unique
`gameId_playerId` (src/unnamed/part_000 lines 70–82). -/
def nbaGameStatsUpsert (store : List NbaGameStats) (payload : GameStatData) :
    List NbaGameStats :=
  prismaUpsert
    (fun q => q.data.gameId == payload.gameId &&
      q.data.playerId == payload.playerId)
    (gameStatUpdateData payload) (gameStatCreateData payload) store

/-! ### The batch aggregator shared by the three store scripts -/

/-- One element of the `results` array: `{success:true, id}` or
`{success:false, id, error}` (the id field is `id` / `projection` / `gameId`
per script, always holding the value used to name the record in the report). -/
inductive RecordOutcome where
  | ok : String → RecordOutcome
  | err : String → String → RecordOutcome
deriving DecidableEq, Repr

/-- The `r.success` flag of an outcome. -/
def RecordOutcome.isSuccess : RecordOutcome → Bool
  | RecordOutcome.ok _ => true
  | RecordOutcome.err _ _ => false

/-- The per-record try/catch loop shared by `storeProjections`,
`storePlayers` and `storeGameStats`: every record is attempted; a record on
which the store throws (`dbFail r = true`) leaves the store unchanged and
contributes its catch-branch failure entry; otherwise its upsert is applied
and a success entry is recorded.  `Promise.all` keeps the entries in input
order, so a left fold over the records is faithful. -/
def processBatch {σ α : Type} (dbFail : α → Bool) (step : σ → α → σ)
    (okOf : α → RecordOutcome) (errOf : α → RecordOutcome)
    (init : σ) (records : List α) : σ × List RecordOutcome :=
  records.foldl
    (fun acc r =>
      if dbFail r then (acc.1, acc.2 ++ [errOf r])
      else (step acc.1 r, acc.2 ++ [okOf r]))
    (init, [])

/-- `successCount` of store_projections.js line 150 (and the analogous lines
of the other two scripts): `results.filter(r => r.success).length`. -/
def successCount (results : List RecordOutcome) : Nat :=
  (results.filter RecordOutcome.isSuccess).length

/-- The `errors` list: `results.filter(r => !r.success)`. -/
def failureList (results : List RecordOutcome) : List RecordOutcome :=
  results.filter (fun r => !r.isSuccess)

/-- The batch of `storeProjections` (lines 75–163): map over the projections,
upsert each in its own try/catch; `errMsg r` is the message of the error the
store threw for `r`.  Returns the final store and the `results` array. -/
def storeProjectionsBatch (dbFail : ProjInput → Bool)
    (errMsg : ProjInput → String) (store : List Projection)
    (records : List ProjInput) : List Projection × List RecordOutcome :=
  processBatch dbFail projectionUpsert
    (fun r => RecordOutcome.ok r.projectionId)
    (fun r => RecordOutcome.err r.projectionId (errMsg r))
    store records

/-- The batch of `storeGameStats` (src/unnamed/part_000 lines 30–101):
`Object.entries(games)` gives (gameId, gameStat) pairs, all sharing the file's
`playerId`; failures are reported by `gameId`. -/
def storeGameStatsBatch (dbFail : String × RawGameStat → Bool)
    (errMsg : String × RawGameStat → String) (playerId : String)
    (store : List NbaGameStats) (games : List (String × RawGameStat)) :
    List NbaGameStats × List RecordOutcome :=
  processBatch dbFail
    (fun st e => nbaGameStatsUpsert st (gameStatData e.1 playerId e.2))
    (fun e => RecordOutcome.ok e.1)
    (fun e => RecordOutcome.err e.1 (errMsg e))
    store games

/-! ### delete_old_projections.js -/

/-- `deleteOldProjections`: capture `new Date()` once as `now`, then
`deleteMany({where: {startTime: {lt: now}}})`.  Returns the remaining store
and the `result.count` of deleted rows. -/
def deleteOldProjections (now : Int) (store : List Projection) :
    List Projection × Nat :=
  (store.filter (fun p => !decide (p.startTime < now)),
   (store.filter (fun p => decide (p.startTime < now))).length)

/-! ### updateProjectionsWithOdds (the odds updater) -/

/-- The odds payload; `lastUpdated` is an epoch-seconds number when present.
The four spread/total fields arrive as strings (or are absent) and are
coerced with `parseFloat(x) || null`. -/
structure OddsData where
  homeTeam : Option String
  awayTeam : Option String
  homeSpread : Option String
  awaySpread : Option String
  totalOver : Option String
  totalUnder : Option String
  homeMoneyline : Option String
  awayMoneyline : Option String
  oddsProvider : Option String
  lastUpdated : Option Int
deriving DecidableEq, Repr

/-- The value returned by `updateProjectionsWithOdds`: exactly one of
`message` (no-match path), `error` (catch path) or `count` (success path)
accompanies the `success` flag. -/
structure UpdateResult where
  success : Bool
  message : Option String
  error : Option String
  count : Option Nat
deriving DecidableEq, Repr

/-- The `data` block of the `updateMany` call applied to one matching row:
team/moneyline/provider fields pass through, the four numeric fields go
through `parseFloat(x) || null`, and `oddsLastUpdated` is
`lastUpdated ? new Date(lastUpdated * 1000) : new Date()` (note `0` is falsy),
stored here in epoch milliseconds with `nowMs` the current instant. -/
def applyOddsData (nowMs : Int) (oddsData : OddsData) (q : Projection) :
    Projection :=
  { q with
    homeTeam := oddsData.homeTeam
    awayTeam := oddsData.awayTeam
    homeSpread := jsNumOrNull (parseFloat oddsData.homeSpread)
    awaySpread := jsNumOrNull (parseFloat oddsData.awaySpread)
    totalOver := jsNumOrNull (parseFloat oddsData.totalOver)
    totalUnder := jsNumOrNull (parseFloat oddsData.totalUnder)
    homeMoneyline := oddsData.homeMoneyline
    awayMoneyline := oddsData.awayMoneyline
    oddsProvider := oddsData.oddsProvider
    oddsLastUpdated := some
      (match oddsData.lastUpdated with
        | some v => if v ≠ 0 then v * 1000 else nowMs
        | none => nowMs) }

/-- `updateProjectionsWithOdds(gameId, oddsData)` (query_projections odds
file, lines 10–57): `findMany` by `gameId`; zero matches return the no-match
result without touching the store; otherwise one bulk `updateMany` applies
the same data to every matching row — `updateManyFails = some msg` models
that single call throwing (caught, store unchanged, `{success:false, error}`),
`none` models it succeeding with `count` matched rows. -/
def updateProjectionsWithOdds (nowMs : Int) (updateManyFails : Option String)
    (gameId : String) (oddsData : OddsData) (store : List Projection) :
    List Projection × UpdateResult :=
  let projections := store.filter (fun q => q.gameId == gameId)
  if projections.length = 0 then
    (store,
     { success := false,
       message := some "No projections found for this game ID",
       error := none, count := none })
  else
    match updateManyFails with
    | some msg =>
      (store, { success := false, message := none, error := some msg,
                count := none })
    | none =>
      (store.map (fun q =>
         if q.gameId == gameId then applyOddsData nowMs oddsData q else q),
       { success := true, message := none, error := none,
         count := some projections.length })

/-- The CLI wrapper's exit mapping (lines 174–178):
`process.exit(result.success ? 0 : 1)`. -/
def cliExitCode (r : UpdateResult) : Nat :=
  if r.success then 0 else 1


/-! ### Sample rows used by the witness theorems -/

def sampleGameStatData : GameStatData :=
  ⟨"g1", "p9", "LeBron James", "Lakers", "LAL", "t13",
    JsDate.generic "20240115", "BOS", true, some (JsNum.num 30),
    some (JsNum.num 8), some (JsNum.num 1), some (JsNum.num 7),
    some (JsNum.num 9), some (JsNum.num 1), some (JsNum.num 1),
    some (JsNum.num 3), some (JsNum.num 2), some (JsNum.num 0), "+5",
    "36", some (JsNum.num 11), some (JsNum.num 20), "55.0",
    some (JsNum.num 2), some (JsNum.num 6), "33.3",
    some (JsNum.num 6), some (JsNum.num 7), "85.7", "52.5"⟩

def sampleGameRow : NbaGameStats := ⟨"g1_p9", sampleGameStatData⟩

def sampleOldProjection : Projection :=
  ⟨"pr1", "Old Name", "LAL", "F", "Points", 20, none, none, "g1",
    1705368600, "pre_game", none, none, none, some "LAL", some "BOS",
    some (-3), some 3, some 220, some 220, some "-150", some "+130",
    some "book", some 1705360000000⟩

def sampleProjInput : ProjInput :=
  ⟨"pr1", "New Name", "LAL", "F", "Points", 20, none, none, "g1",
    1705368600, "pre_game", none, none, none⟩

def samplePlayerOld : NbaPlayer := ⟨"p9", "F", "Lakers", "LeBron James", "t13"⟩

def samplePlayerNew : NbaPlayer := ⟨"p9", "C", "Lakers", "LeBron James", "t13"⟩

def sampleBadRawGameStat : RawGameStat :=
  ⟨"LeBron James", "Lakers", "LAL", "t13", "20240115", "BOS", true,
    some "abc", some "8", some "1", some "7", some "9", some "1", some "1",
    some "3", some "2", some "0", "+5", "36", some "11", some "20", "55.0",
    some "2", some "6", "33.3", some "6", some "7", "85.7", "52.5"⟩

def sampleZeroOdds : OddsData :=
  ⟨some "LAL", some "BOS", some "0", some "0", some "0", some "0",
    some "-150", some "+130", some "book", some 1705360000⟩

/-! ## Theorems -/

/-! ### Calendar arithmetic lemmas -/

set_option maxHeartbeats 16000000 in
/-- Recovery of the year-of-era from the day-of-era (the `/365` correction
line of `civilFromDays`), for any day of a valid civil date. -/
theorem yoe_recover (yoe doy doe : Int)
    (h1 : 0 ≤ yoe) (h2 : yoe ≤ 399)
    (h3 : 0 ≤ doy)
    (h4 : doy ≤ 364 ∨ (doy = 365 ∧ (yoe + 1) % 4 = 0 ∧
      ((yoe + 1) % 100 ≠ 0 ∨ (yoe + 1) % 400 = 0)))
    (hdoe : doe = yoe * 365 + yoe / 4 - yoe / 100 + doy) :
    (doe - doe / 1460 + doe / 36524 - doe / 146096) / 365 = yoe := by
  interval_cases yoe <;> omega

/-- Recovery of the shifted month index from the day-of-year. -/
theorem mp_recover (mp d : Int) (hmp1 : 0 ≤ mp) (hmp2 : mp ≤ 11)
    (hd : 1 ≤ d) (h31 : d ≤ 31)
    (h30 : (mp = 1 ∨ mp = 3 ∨ mp = 6 ∨ mp = 8) → d ≤ 30)
    (hfeb : mp = 11 → d ≤ 29) :
    (5 * ((153 * mp + 2) / 5 + d - 1) + 2) / 153 = mp := by
  interval_cases mp <;> omega

/-- The day-of-year of a valid date is at most 364, except Feb 29. -/
theorem doy_bound (m d mp doy : Int) (hm1 : 1 ≤ m) (hm2 : m ≤ 12)
    (hd1 : 1 ≤ d) (h31 : d ≤ 31) (hfeb : m = 2 → d ≤ 29)
    (hmp : mp = (m + 9) % 12)
    (hdoy : doy = (153 * mp + 2) / 5 + d - 1) :
    doy ≤ 364 ∨ (m = 2 ∧ d = 29 ∧ doy = 365) := by
  interval_cases m <;> omega

/-- Leap-year status transfers from the civil year to the year-of-era + 1
(for dates in January/February, where the shifted year is `y - 1`). -/
theorem leap_transfer (y y2 era yoe : Int) (hy2 : y2 = y - 1)
    (hera : era = y2 / 400) (hyoe : yoe = y2 - era * 400)
    (hl : y % 4 = 0 ∧ (y % 100 ≠ 0 ∨ y % 400 = 0)) :
    (yoe + 1) % 4 = 0 ∧ ((yoe + 1) % 100 ≠ 0 ∨ (yoe + 1) % 400 = 0) := by
  omega

/-- Backward day-of-year agrees with the forward one. -/
theorem doy_back (yoe yoeR doe doeR doy doyR : Int)
    (h1 : yoeR = yoe) (h2 : doeR = doe)
    (hdoe : doe = yoe * 365 + yoe / 4 - yoe / 100 + doy)
    (hdoyR : doyR = doeR - (365 * yoeR + yoeR / 4 - yoeR / 100)) :
    doyR = doy := by
  omega

set_option maxHeartbeats 4000000 in
/-- `civilFromDays` inverts `daysFromCivil` on every valid civil date. -/
theorem civil_roundtrip (y m d : Int) (hm1 : 1 ≤ m) (hm2 : m ≤ 12)
    (hd1 : 1 ≤ d) (hd2 : d ≤ daysInMonth y m) :
    civilFromDays (daysFromCivil y m d) = (y, m, d) := by
  have hd2' : d ≤ 31 ∧ (m = 2 → d ≤ 29) ∧
      ((m = 4 ∨ m = 6 ∨ m = 9 ∨ m = 11) → d ≤ 30) ∧
      (m = 2 → d = 29 → y % 4 = 0 ∧ (y % 100 ≠ 0 ∨ y % 400 = 0)) := by
    unfold daysInMonth at hd2
    by_cases h1 : m = 2
    · rw [if_pos h1] at hd2
      by_cases h2 : isLeapYear y
      · rw [if_pos h2] at hd2
        have h2' : y % 4 = 0 ∧ (y % 100 ≠ 0 ∨ y % 400 = 0) := by
          unfold isLeapYear at h2
          simpa only [Bool.and_eq_true, Bool.or_eq_true, decide_eq_true_eq]
            using h2
        exact ⟨by omega, fun _ => hd2, fun hmm => by omega, fun _ _ => h2'⟩
      · rw [if_neg h2] at hd2
        exact ⟨by omega, fun _ => by omega, fun hmm => by omega,
          fun _ hd29 => by omega⟩
    · rw [if_neg h1] at hd2
      by_cases h3 : m = 4 ∨ m = 6 ∨ m = 9 ∨ m = 11
      · rw [if_pos h3] at hd2
        exact ⟨by omega, fun hmm => absurd hmm h1, fun _ => hd2,
          fun hmm => absurd hmm h1⟩
      · rw [if_neg h3] at hd2
        exact ⟨hd2, fun hmm => absurd hmm h1, fun hmm => absurd hmm h3,
          fun hmm => absurd hmm h1⟩
  obtain ⟨hd31, hdfeb, hd30, hleap⟩ := hd2'
  clear hd2
  unfold civilFromDays daysFromCivil
  simp only []
  set y2 := if m ≤ 2 then y - 1 else y with hy2
  have hy2' : (m ≤ 2 ∧ y2 = y - 1) ∨ (¬ m ≤ 2 ∧ y2 = y) := by
    by_cases h : m ≤ 2
    · exact Or.inl ⟨h, by rw [hy2, if_pos h]⟩
    · exact Or.inr ⟨h, by rw [hy2, if_neg h]⟩
  clear hy2
  set era := y2 / 400 with hera
  set yoe := y2 - era * 400 with hyoe
  set mp := (m + 9) % 12 with hmp
  set doy := (153 * mp + 2) / 5 + d - 1 with hdoy
  set doe := yoe * 365 + yoe / 4 - yoe / 100 + doy with hdoe
  have hyoeB : 0 ≤ yoe ∧ yoe ≤ 399 := by omega
  have hdoyB : 0 ≤ doy ∧ doy ≤ 365 := by omega
  have hdoeB : 0 ≤ doe ∧ doe ≤ 146096 := by omega
  have hval : doy ≤ 364 ∨ (doy = 365 ∧ (yoe + 1) % 4 = 0 ∧
      ((yoe + 1) % 100 ≠ 0 ∨ (yoe + 1) % 400 = 0)) := by
    rcases doy_bound m d mp doy hm1 hm2 hd1 hd31 hdfeb hmp hdoy with
      h | ⟨hm2c, hd29, h365⟩
    · exact Or.inl h
    · refine Or.inr ⟨h365, ?_⟩
      rcases hy2' with ⟨hle, hy2e⟩ | ⟨hgt, _⟩
      · exact leap_transfer y y2 era yoe hy2e hera hyoe (hleap hm2c hd29)
      · exact absurd (by omega : m ≤ 2) hgt
  set z2R := era * 146097 + doe - 719468 + 719468 with hz2R
  set eraR := z2R / 146097 with heraR
  have heraE : eraR = era := by omega
  clear heraR
  set doeR := z2R - eraR * 146097 with hdoeR
  have hdoeE : doeR = doe := by omega
  clear hdoeR hz2R
  set yoeR := (doeR - doeR / 1460 + doeR / 36524 - doeR / 146096) / 365
    with hyoeR
  have hyoeE : yoeR = yoe := by
    have hrec := yoe_recover yoe doy doe hyoeB.1 hyoeB.2 hdoyB.1 hval hdoe
    omega
  clear hyoeR
  set yR := yoeR + eraR * 400 with hyR
  set doyR := doeR - (365 * yoeR + yoeR / 4 - yoeR / 100) with hdoyR
  have hdoyE : doyR = doy :=
    doy_back yoe yoeR doe doeR doy doyR hyoeE hdoeE hdoe hdoyR
  clear hdoyR
  set mpR := (5 * doyR + 2) / 153 with hmpR
  have hmpE : mpR = mp := by
    have hrec := mp_recover mp d (by omega) (by omega) hd1 hd31
      (by omega) (by omega)
    omega
  clear hmpR
  set dR := doyR - (153 * mpR + 2) / 5 + 1 with hdR
  have hdE : dR = d := by omega
  clear hdR
  set mR := mpR + (if mpR < 10 then 3 else -9) with hmR
  have hmE : mR = m := by
    rcases lt_or_le mpR 10 with h | h
    · rw [hmR, if_pos h]; omega
    · rw [hmR, if_neg (by omega)]; omega
  clear hmR
  have hyE : (if mR ≤ 2 then yR + 1 else yR) = y := by
    rcases le_or_lt mR 2 with h | h
    · rw [if_pos h]; omega
    · rw [if_neg (by omega)]; omega
  rw [Prod.mk.injEq, Prod.mk.injEq]
  exact ⟨hyE, hmE, hdE⟩

/-- The day argument enters `daysFromCivil` linearly. -/
theorem daysFromCivil_day_shift (y m d : Int) :
    daysFromCivil y m d = daysFromCivil y m 1 + (d - 1) := by
  unfold daysFromCivil
  simp only []
  omega

/-- `Date.UTC(year, month - 1, ...)` agrees with reading the components as a
UTC wall clock when the (1-indexed) month is in range. -/
theorem jsDateUTCsec_eq_utcEpoch (y m d h mi s : Int)
    (hm1 : 1 ≤ m) (hm2 : m ≤ 12) :
    jsDateUTCsec y (m - 1) d h mi s = utcEpochOfComponents y m d h mi s := by
  unfold jsDateUTCsec utcEpochOfComponents jsMakeDay
  have h1 : y + (m - 1) / 12 = y := by omega
  have h2 : (m - 1) % 12 + 1 = m := by omega
  rw [h1, h2, daysFromCivil_day_shift y m d]

/-- Displaying `utc-of-components minus offset` back in the same offset
reproduces the components. -/
theorem wallClock_roundtrip (y m d h mi s tz : Int)
    (hm1 : 1 ≤ m) (hm2 : m ≤ 12) (hd1 : 1 ≤ d) (hd2 : d ≤ daysInMonth y m)
    (hh1 : 0 ≤ h) (hh2 : h ≤ 23) (hmi1 : 0 ≤ mi) (hmi2 : mi ≤ 59)
    (hs1 : 0 ≤ s) (hs2 : s ≤ 59) :
    wallClockAtOffset tz (utcEpochOfComponents y m d h mi s - tz * 60) =
      (y, m, d, h, mi, s) := by
  unfold wallClockAtOffset utcEpochOfComponents
  simp only []
  have key : daysFromCivil y m d * 86400 + h * 3600 + mi * 60 + s - tz * 60 +
      tz * 60 = daysFromCivil y m d * 86400 + (h * 3600 + mi * 60 + s) := by
    ring
  rw [key]
  have hdiv : (daysFromCivil y m d * 86400 + (h * 3600 + mi * 60 + s)) /
      86400 = daysFromCivil y m d := by omega
  have hmod : (daysFromCivil y m d * 86400 + (h * 3600 + mi * 60 + s)) %
      86400 = h * 3600 + mi * 60 + s := by omega
  rw [hdiv, hmod, civil_roundtrip y m d hm1 hm2 hd1 hd2]
  have e1 : (h * 3600 + mi * 60 + s) / 3600 = h := by omega
  have e2 : (h * 3600 + mi * 60 + s) % 3600 / 60 = mi := by omega
  have e3 : (h * 3600 + mi * 60 + s) % 60 = s := by omega
  rw [e1, e2, e3]

/-- C2: for every timestamp string of the form `YYYY-MM-DDTHH:MM:SS±HH:MM`
(i.e. every string the normalizer's regex matches) whose components form a
valid calendar date and time of day, `parseISODatePreservingTimezone` returns,
without taking the warning fallback, exactly the absolute instant obtained by
reading the six numeric components as UTC and subtracting the signed offset
minutes; converting that instant back into the stated offset's wall clock
reproduces the original date and time exactly; and in particular
`2024-01-15T19:30:00-06:00` yields the instant `2024-01-16T01:30:00Z`
(epoch second 1705368600), whose wall clock at offset -06:00 has calendar
date 2024-01-15. -/
theorem C2_date_normalizer_correct (str : String) (c : ISOComponents)
    (hmatch : matchISO str = some c)
    (hm1 : 1 ≤ c.month) (hm2 : c.month ≤ 12)
    (hd1 : 1 ≤ c.day) (hd2 : c.day ≤ daysInMonth c.year c.month)
    (hh1 : 0 ≤ c.hour) (hh2 : c.hour ≤ 23)
    (hmi1 : 0 ≤ c.minute) (hmi2 : c.minute ≤ 59)
    (hs1 : 0 ≤ c.second) (hs2 : c.second ≤ 59) :
    parseISODatePreservingTimezone str =
      ⟨JsDate.instant (utcEpochOfComponents c.year c.month c.day c.hour
        c.minute c.second - c.tzOffsetMinutes * 60), false⟩ ∧
    wallClockAtOffset c.tzOffsetMinutes
      (utcEpochOfComponents c.year c.month c.day c.hour c.minute c.second -
        c.tzOffsetMinutes * 60) =
      (c.year, c.month, c.day, c.hour, c.minute, c.second) ∧
    parseISODatePreservingTimezone "2024-01-15T19:30:00-06:00" =
      ⟨JsDate.instant 1705368600, false⟩ ∧
    (wallClockAtOffset (-360) 1705368600).1 = 2024 ∧
    (wallClockAtOffset (-360) 1705368600).2.1 = 1 ∧
    (wallClockAtOffset (-360) 1705368600).2.2.1 = 15 := by
  have hne : str ≠ "" := by
    intro h
    rw [h, (rfl : matchISO "" = none)] at hmatch
    exact Option.noConfusion hmatch
  have hstep : parseISODatePreservingTimezone str =
      ⟨JsDate.instant (jsDateUTCsec c.year (c.month - 1) c.day c.hour
        c.minute c.second - c.tzOffsetMinutes * 60), false⟩ := by
    unfold parseISODatePreservingTimezone
    rw [if_neg hne, hmatch]
  rw [jsDateUTCsec_eq_utcEpoch c.year c.month c.day c.hour c.minute c.second
    hm1 hm2] at hstep
  exact ⟨hstep,
    wallClock_roundtrip c.year c.month c.day c.hour c.minute c.second
      c.tzOffsetMinutes hm1 hm2 hd1 hd2 hh1 hh2 hmi1 hmi2 hs1 hs2,
    by rfl, by rfl, by rfl, by rfl⟩

/-- Witness for C2 at the spec's example timestamp. -/
theorem C2_date_normalizer_correct_witness :
    matchISO "2024-01-15T19:30:00-06:00" =
      some ⟨2024, 1, 15, 19, 30, 0, -360⟩ ∧
    parseISODatePreservingTimezone "2024-01-15T19:30:00-06:00" =
      ⟨JsDate.instant (utcEpochOfComponents 2024 1 15 19 30 0 -
        (-360) * 60), false⟩ ∧
    wallClockAtOffset (-360)
      (utcEpochOfComponents 2024 1 15 19 30 0 - (-360) * 60) =
      (2024, 1, 15, 19, 30, 0) := by
  have h := C2_date_normalizer_correct "2024-01-15T19:30:00-06:00"
    ⟨2024, 1, 15, 19, 30, 0, -360⟩ (by rfl) (by decide) (by decide)
    (by decide) (by decide) (by decide) (by decide) (by decide) (by decide)
    (by decide) (by decide)
  exact ⟨by rfl, h.1, h.2.1⟩

/-- C9 (amended): for every nonempty input string that does not match the
expected pattern, the date normalizer does not throw (it is a total
function), falls back to the engine's best-effort generic parse
`new Date(isoString)` of the very input string, and flags the logged
warning. -/
theorem C9_date_fallback (s : String) (hne : s ≠ "")
    (hnm : matchISO s = none) :
    parseISODatePreservingTimezone s = ⟨JsDate.generic s, true⟩ := by
  unfold parseISODatePreservingTimezone
  rw [if_neg hne, hnm]

/-- Witness for C9 at a concrete malformed string. -/
theorem C9_date_fallback_witness :
    ("hello" ≠ "" ∧ matchISO "hello" = none) ∧
    parseISODatePreservingTimezone "hello" =
      ⟨JsDate.generic "hello", true⟩ :=
  ⟨⟨by decide, by rfl⟩, C9_date_fallback "hello" (by decide) (by rfl)⟩

/-- C9 counterexample: the empty string does not match the expected pattern,
yet the normalizer returns the current instant (`new Date()`) with no warning
and no generic parse of the input — so "every non-matching input warns and
falls back to a generic parse" fails at `""`. -/
theorem C9_counterexample :
    matchISO "" = none ∧
    parseISODatePreservingTimezone "" = ⟨JsDate.currentTime, false⟩ ∧
    parseISODatePreservingTimezone "" ≠ ⟨JsDate.generic "", true⟩ := by
  refine ⟨by rfl, by rfl, by decide⟩

/-! ### Generic facts about the Prisma upsert primitive -/

/-- When a matching row exists, `upsert` is an in-place map (no insertion). -/
theorem prismaUpsert_present {α : Type} (wm : α → Bool) (upd : α → α)
    (cr : α) (store : List α) (h : store.any wm = true) :
    prismaUpsert wm upd cr store =
      store.map (fun q => if wm q then upd q else q) := by
  unfold prismaUpsert
  rw [if_pos h]

/-- When no row matches, `upsert` appends the created row. -/
theorem prismaUpsert_absent {α : Type} (wm : α → Bool) (upd : α → α)
    (cr : α) (store : List α) (h : store.any wm = false) :
    prismaUpsert wm upd cr store = store ++ [cr] := by
  unfold prismaUpsert
  rw [h]
  simp

/-- `countP` only depends on the pointwise values of the predicate. -/
theorem countP_pointwise {α : Type} (p q : α → Bool) (l : List α)
    (h : ∀ a ∈ l, p a = q a) : l.countP p = l.countP q := by
  induction l with
  | nil => rfl
  | cons a l ih =>
    rw [List.countP_cons, List.countP_cons, h a (List.mem_cons_self a l),
      ih (fun b hb => h b (List.mem_cons_of_mem a hb))]

/-- Upserting the same input twice produces the same store as upserting it
once, provided updating keeps a row matching, updating is idempotent, and the
created row matches and is a fixed point of the update. -/
theorem prismaUpsert_idem {α : Type} (wm : α → Bool) (upd : α → α) (cr : α)
    (store : List α)
    (hkey : ∀ a, wm a = true → wm (upd a) = true)
    (hidem : ∀ a, upd (upd a) = upd a)
    (hcr : wm cr = true) (hcrfix : upd cr = cr) :
    prismaUpsert wm upd cr (prismaUpsert wm upd cr store) =
      prismaUpsert wm upd cr store := by
  by_cases h : store.any wm = true
  · rw [prismaUpsert_present wm upd cr store h]
    have h2 : (store.map (fun q => if wm q then upd q else q)).any wm =
        true := by
      rw [List.any_map]
      rcases List.any_eq_true.mp h with ⟨a, ha, hwa⟩
      refine List.any_eq_true.mpr ⟨a, ha, ?_⟩
      show wm (if wm a = true then upd a else a) = true
      rw [if_pos hwa]
      exact hkey a hwa
    rw [prismaUpsert_present wm upd cr _ h2, List.map_map]
    refine List.map_congr_left (fun a _ => ?_)
    show (if wm (if wm a = true then upd a else a) = true
        then upd (if wm a = true then upd a else a)
        else (if wm a = true then upd a else a)) =
      (if wm a = true then upd a else a)
    by_cases hwa : wm a = true
    · rw [if_pos hwa, if_pos (hkey a hwa), hidem a]
    · simp only [if_neg hwa]
  · have h' : store.any wm = false := Bool.eq_false_iff.mpr h
    rw [prismaUpsert_absent wm upd cr store h']
    have hn : ∀ a ∈ store, ¬ wm a = true := List.any_eq_false.mp h'
    have h2 : (store ++ [cr]).any wm = true := by
      simp [List.any_append, hcr]
    rw [prismaUpsert_present wm upd cr _ h2, List.map_append]
    have e1 : store.map (fun q => if wm q then upd q else q) = store := by
      rw [List.map_congr_left (fun a ha => if_neg (hn a ha))]
      exact List.map_id _
    rw [e1]
    show store ++ [if wm cr = true then upd cr else cr] = store ++ [cr]
    rw [if_pos hcr, hcrfix]

/-- After an upsert there is exactly one matching row, given the unique
constraint held beforehand (at most one matching row). -/
theorem prismaUpsert_count {α : Type} (wm : α → Bool) (upd : α → α) (cr : α)
    (store : List α)
    (hkey : ∀ a, wm a = true → wm (upd a) = true)
    (hcr : wm cr = true)
    (hc : store.countP wm ≤ 1) :
    (prismaUpsert wm upd cr store).countP wm = 1 := by
  by_cases h : store.any wm = true
  · rw [prismaUpsert_present wm upd cr store h, List.countP_map]
    have e : store.countP (wm ∘ fun q => if wm q then upd q else q) =
        store.countP wm := by
      refine countP_pointwise _ _ _ (fun a _ => ?_)
      show wm (if wm a = true then upd a else a) = wm a
      by_cases hwa : wm a = true
      · rw [if_pos hwa, hkey a hwa, hwa]
      · rw [if_neg hwa]
    rw [e]
    rcases List.any_eq_true.mp h with ⟨a, ha, hwa⟩
    have : 0 < store.countP wm := List.countP_pos_iff.mpr ⟨a, ha, hwa⟩
    omega
  · have h' : store.any wm = false := Bool.eq_false_iff.mpr h
    rw [prismaUpsert_absent wm upd cr store h', List.countP_append]
    have h0 : store.countP wm = 0 := by
      rw [List.countP_eq_zero]
      exact List.any_eq_false.mp h'
    rw [h0]
    simp [hcr]

/-! ### Generic facts about the batch aggregator -/

/-- Accumulator-generalized unfolding of `processBatch`. -/
theorem processBatch_go {σ α : Type} (dbFail : α → Bool) (step : σ → α → σ)
    (okOf : α → RecordOutcome) (errOf : α → RecordOutcome)
    (records : List α) (init : σ) (acc : List RecordOutcome) :
    records.foldl
      (fun acc r =>
        if dbFail r then (acc.1, acc.2 ++ [errOf r])
        else (step acc.1 r, acc.2 ++ [okOf r]))
      (init, acc) =
    (records.foldl (fun st r => if dbFail r then st else step st r) init,
     acc ++ records.map (fun r => if dbFail r then errOf r else okOf r)) := by
  induction records generalizing init acc with
  | nil => simp
  | cons r rs ih =>
    by_cases h : dbFail r = true
    · simp only [List.foldl_cons, h, if_true, ih, List.map_cons,
        List.append_assoc, List.singleton_append]
    · simp only [List.foldl_cons, h, if_false, ih, List.map_cons,
        List.append_assoc, List.singleton_append, Bool.false_eq_true]

/-- `processBatch` = (fold of the successful upserts, one outcome per input
record in order). -/
theorem processBatch_spec {σ α : Type} (dbFail : α → Bool) (step : σ → α → σ)
    (okOf : α → RecordOutcome) (errOf : α → RecordOutcome)
    (init : σ) (records : List α) :
    processBatch dbFail step okOf errOf init records =
    (records.foldl (fun st r => if dbFail r then st else step st r) init,
     records.map (fun r => if dbFail r then errOf r else okOf r)) := by
  unfold processBatch
  rw [processBatch_go]
  simp

/-- Every record contributes exactly one outcome. -/
theorem batch_results_length {α : Type} (dbFail : α → Bool)
    (okOf errOf : α → RecordOutcome) (records : List α) :
    (records.map (fun r => if dbFail r then errOf r else okOf r)).length =
      records.length := by
  simp

/-- The success tally is `N - K`. -/
theorem batch_success_count {α : Type} (dbFail : α → Bool)
    (okOf errOf : α → RecordOutcome) (records : List α)
    (hok : ∀ r, (okOf r).isSuccess = true)
    (herr : ∀ r, (errOf r).isSuccess = false) :
    successCount
        (records.map (fun r => if dbFail r then errOf r else okOf r)) =
      records.length - records.countP dbFail := by
  induction records with
  | nil => rfl
  | cons r rs ih =>
    have hKN : rs.countP dbFail ≤ rs.length := List.countP_le_length _
    simp only [successCount] at ih ⊢
    by_cases h : dbFail r = true
    · simp [h, List.filter_cons, herr r, List.countP_cons, ih]
    · simp [h, List.filter_cons, hok r, List.countP_cons, ih]
      omega

/-- The failure report is exactly the failing records' error entries, in
order. -/
theorem batch_failure_list {α : Type} (dbFail : α → Bool)
    (okOf errOf : α → RecordOutcome) (records : List α)
    (hok : ∀ r, (okOf r).isSuccess = true)
    (herr : ∀ r, (errOf r).isSuccess = false) :
    failureList
        (records.map (fun r => if dbFail r then errOf r else okOf r)) =
      (records.filter dbFail).map errOf := by
  induction records with
  | nil => rfl
  | cons r rs ih =>
    simp only [failureList] at ih ⊢
    by_cases h : dbFail r = true
    · simp [h, List.filter_cons, herr r, ih]
    · simp [h, List.filter_cons, hok r, ih]

/-- C1: for every starting store satisfying the schema's unique constraint
(at most one row per natural key), applying the same upsert twice with
identical fields produces the same stored state as applying it once, and
after each call exactly one stored row exists for the natural key — for all
three upserts: projections keyed by `projectionId`, players keyed by
`playerID`, game stats keyed by `gameId`+`playerId`. -/
theorem C1_upsert_idempotent_unique
    (sp : List Projection) (p : ProjInput)
    (hp : sp.countP (fun q => q.projectionId == p.projectionId) ≤ 1)
    (sl : List NbaPlayer) (pl : NbaPlayer)
    (hl : sl.countP (fun q => q.playerID == pl.playerID) ≤ 1)
    (sg : List NbaGameStats) (g : GameStatData)
    (hg : sg.countP (fun q => q.data.gameId == g.gameId &&
      q.data.playerId == g.playerId) ≤ 1) :
    projectionUpsert (projectionUpsert sp p) p = projectionUpsert sp p ∧
    (projectionUpsert sp p).countP
      (fun q => q.projectionId == p.projectionId) = 1 ∧
    (projectionUpsert (projectionUpsert sp p) p).countP
      (fun q => q.projectionId == p.projectionId) = 1 ∧
    nbaPlayerUpsert (nbaPlayerUpsert sl pl) pl = nbaPlayerUpsert sl pl ∧
    (nbaPlayerUpsert sl pl).countP
      (fun q => q.playerID == pl.playerID) = 1 ∧
    (nbaPlayerUpsert (nbaPlayerUpsert sl pl) pl).countP
      (fun q => q.playerID == pl.playerID) = 1 ∧
    nbaGameStatsUpsert (nbaGameStatsUpsert sg g) g =
      nbaGameStatsUpsert sg g ∧
    (nbaGameStatsUpsert sg g).countP
      (fun q => q.data.gameId == g.gameId &&
        q.data.playerId == g.playerId) = 1 ∧
    (nbaGameStatsUpsert (nbaGameStatsUpsert sg g) g).countP
      (fun q => q.data.gameId == g.gameId &&
        q.data.playerId == g.playerId) = 1 := by
  refine ⟨?_, ?_, ?_, ?_, ?_, ?_, ?_, ?_, ?_⟩
  · exact prismaUpsert_idem (fun q => q.projectionId == p.projectionId)
      (projectionUpdateData p) (projectionCreateData p) sp
      (fun a ha => ha) (fun a => rfl) (by simp [projectionCreateData]) rfl
  · exact prismaUpsert_count (fun q => q.projectionId == p.projectionId)
      (projectionUpdateData p) (projectionCreateData p) sp
      (fun a ha => ha) (by simp [projectionCreateData]) hp
  · exact prismaUpsert_count (fun q => q.projectionId == p.projectionId)
      (projectionUpdateData p) (projectionCreateData p) (projectionUpsert sp p)
      (fun a ha => ha) (by simp [projectionCreateData])
      (le_of_eq (prismaUpsert_count
        (fun q => q.projectionId == p.projectionId)
        (projectionUpdateData p) (projectionCreateData p) sp
        (fun a ha => ha) (by simp [projectionCreateData]) hp))
  · exact prismaUpsert_idem (fun q => q.playerID == pl.playerID)
      (nbaPlayerUpdateData pl) (nbaPlayerCreateData pl) sl
      (fun a ha => ha) (fun a => rfl) (by simp [nbaPlayerCreateData]) rfl
  · exact prismaUpsert_count (fun q => q.playerID == pl.playerID)
      (nbaPlayerUpdateData pl) (nbaPlayerCreateData pl) sl
      (fun a ha => ha) (by simp [nbaPlayerCreateData]) hl
  · exact prismaUpsert_count (fun q => q.playerID == pl.playerID)
      (nbaPlayerUpdateData pl) (nbaPlayerCreateData pl) (nbaPlayerUpsert sl pl)
      (fun a ha => ha) (by simp [nbaPlayerCreateData])
      (le_of_eq (prismaUpsert_count (fun q => q.playerID == pl.playerID)
        (nbaPlayerUpdateData pl) (nbaPlayerCreateData pl) sl
        (fun a ha => ha) (by simp [nbaPlayerCreateData]) hl))
  · exact prismaUpsert_idem
      (fun q => q.data.gameId == g.gameId && q.data.playerId == g.playerId)
      (gameStatUpdateData g) (gameStatCreateData g) sg
      (fun a ha => by simp [gameStatUpdateData]) (fun a => rfl)
      (by simp [gameStatCreateData]) rfl
  · exact prismaUpsert_count
      (fun q => q.data.gameId == g.gameId && q.data.playerId == g.playerId)
      (gameStatUpdateData g) (gameStatCreateData g) sg
      (fun a ha => by simp [gameStatUpdateData])
      (by simp [gameStatCreateData]) hg
  · exact prismaUpsert_count
      (fun q => q.data.gameId == g.gameId && q.data.playerId == g.playerId)
      (gameStatUpdateData g) (gameStatCreateData g) (nbaGameStatsUpsert sg g)
      (fun a ha => by simp [gameStatUpdateData])
      (by simp [gameStatCreateData])
      (le_of_eq (prismaUpsert_count
        (fun q => q.data.gameId == g.gameId && q.data.playerId == g.playerId)
        (gameStatUpdateData g) (gameStatCreateData g) sg
        (fun a ha => by simp [gameStatUpdateData])
        (by simp [gameStatCreateData]) hg))

/-- Witness for C1 on concrete inputs against empty stores. -/
theorem C1_upsert_idempotent_unique_witness :
    (([] : List Projection).countP
      (fun q => q.projectionId == "pr1") ≤ 1) ∧
    projectionUpsert (projectionUpsert []
        ⟨"pr1", "LeBron James", "LAL", "F", "Points", 25, none, none, "g1",
          1705368600, "pre_game", none, none, none⟩)
        ⟨"pr1", "LeBron James", "LAL", "F", "Points", 25, none, none, "g1",
          1705368600, "pre_game", none, none, none⟩ =
      projectionUpsert []
        ⟨"pr1", "LeBron James", "LAL", "F", "Points", 25, none, none, "g1",
          1705368600, "pre_game", none, none, none⟩ ∧
    (projectionUpsert []
        ⟨"pr1", "LeBron James", "LAL", "F", "Points", 25, none, none, "g1",
          1705368600, "pre_game", none, none, none⟩).countP
      (fun q => q.projectionId == "pr1") = 1 ∧
    nbaPlayerUpsert (nbaPlayerUpsert [] ⟨"p9", "F", "Lakers",
        "LeBron James", "t13"⟩) ⟨"p9", "F", "Lakers", "LeBron James",
        "t13"⟩ =
      nbaPlayerUpsert [] ⟨"p9", "F", "Lakers", "LeBron James", "t13"⟩ ∧
    (nbaGameStatsUpsert []
        ⟨"g1", "p9", "LeBron James", "Lakers", "LAL", "t13",
          JsDate.generic "20240115", "BOS", true, some (JsNum.num 30),
          some (JsNum.num 8), some (JsNum.num 1), some (JsNum.num 7),
          some (JsNum.num 9), some (JsNum.num 1), some (JsNum.num 1),
          some (JsNum.num 3), some (JsNum.num 2), some (JsNum.num 0), "+5",
          "36", some (JsNum.num 11), some (JsNum.num 20), "55.0",
          some (JsNum.num 2), some (JsNum.num 6), "33.3",
          some (JsNum.num 6), some (JsNum.num 7), "85.7", "52.5"⟩).countP
      (fun q => q.data.gameId == "g1" && q.data.playerId == "p9") = 1 := by
  have h := C1_upsert_idempotent_unique
    [] ⟨"pr1", "LeBron James", "LAL", "F", "Points", 25, none, none, "g1",
      1705368600, "pre_game", none, none, none⟩ (by simp)
    [] ⟨"p9", "F", "Lakers", "LeBron James", "t13"⟩ (by simp)
    [] ⟨"g1", "p9", "LeBron James", "Lakers", "LAL", "t13",
      JsDate.generic "20240115", "BOS", true, some (JsNum.num 30),
      some (JsNum.num 8), some (JsNum.num 1), some (JsNum.num 7),
      some (JsNum.num 9), some (JsNum.num 1), some (JsNum.num 1),
      some (JsNum.num 3), some (JsNum.num 2), some (JsNum.num 0), "+5",
      "36", some (JsNum.num 11), some (JsNum.num 20), "55.0",
      some (JsNum.num 2), some (JsNum.num 6), "33.3",
      some (JsNum.num 6), some (JsNum.num 7), "85.7", "52.5"⟩ (by simp)
  exact ⟨by simp, h.1, h.2.1, h.2.2.2.1, h.2.2.2.2.2.2.2.1⟩

/-- C7: upserting an already-present record only changes non-key fields:
the natural key (projection id; player id; game id + player id, and the
surrogate id) is never reassigned, each field listed in the update block is
overwritten with the incoming value, and every other field — in particular a
projection's previously enriched odds columns — keeps its stored value; so
when a single non-key field differs, only that field's stored value
changes.  The store itself is an in-place map (no row added or removed). -/
theorem C7_update_frame
    (sp : List Projection) (p : ProjInput) (qp : Projection)
    (hqp : qp ∈ sp) (hkp : qp.projectionId = p.projectionId)
    (sl : List NbaPlayer) (pl : NbaPlayer) (ql : NbaPlayer)
    (hql : ql ∈ sl) (hkl : ql.playerID = pl.playerID)
    (sg : List NbaGameStats) (g : GameStatData) (qg : NbaGameStats)
    (hqg : qg ∈ sg) (hkg1 : qg.data.gameId = g.gameId)
    (hkg2 : qg.data.playerId = g.playerId) :
    projectionUpsert sp p = sp.map
      (fun r => if r.projectionId == p.projectionId
        then projectionUpdateData p r else r) ∧
    projectionUpdateData p qp =
      { projectionId := qp.projectionId
        playerName := p.playerName
        team := p.team
        position := p.position
        statType := p.statType
        lineScore := p.lineScore
        average := p.average
        maxValue := p.maxValue
        gameId := p.gameId
        startTime := p.startTime
        status := p.status
        opponent := p.description
        imageUrl := p.imageUrl
        oddsType := p.oddsType
        homeTeam := qp.homeTeam
        awayTeam := qp.awayTeam
        homeSpread := qp.homeSpread
        awaySpread := qp.awaySpread
        totalOver := qp.totalOver
        totalUnder := qp.totalUnder
        homeMoneyline := qp.homeMoneyline
        awayMoneyline := qp.awayMoneyline
        oddsProvider := qp.oddsProvider
        oddsLastUpdated := qp.oddsLastUpdated } ∧
    nbaPlayerUpsert sl pl = sl.map
      (fun r => if r.playerID == pl.playerID
        then nbaPlayerUpdateData pl r else r) ∧
    nbaPlayerUpdateData pl ql =
      { playerID := ql.playerID
        position := pl.position
        team := pl.team
        playerName := pl.playerName
        teamID := pl.teamID } ∧
    nbaGameStatsUpsert sg g = sg.map
      (fun r => if r.data.gameId == g.gameId && r.data.playerId == g.playerId
        then gameStatUpdateData g r else r) ∧
    (gameStatUpdateData g qg).id = qg.id ∧
    (gameStatUpdateData g qg).data.gameId = qg.data.gameId ∧
    (gameStatUpdateData g qg).data.playerId = qg.data.playerId ∧
    (gameStatUpdateData g qg).data = g := by
  refine ⟨?_, rfl, ?_, rfl, ?_, rfl, ?_, ?_, rfl⟩
  · exact prismaUpsert_present _ _ _ sp
      (List.any_eq_true.mpr ⟨qp, hqp, by rw [hkp]; simp⟩)
  · exact prismaUpsert_present _ _ _ sl
      (List.any_eq_true.mpr ⟨ql, hql, by rw [hkl]; simp⟩)
  · exact prismaUpsert_present _ _ _ sg
      (List.any_eq_true.mpr ⟨qg, hqg, by rw [hkg1, hkg2]; simp⟩)
  · show g.gameId = qg.data.gameId
    exact hkg1.symm
  · show g.playerId = qg.data.playerId
    exact hkg2.symm

/-- Witness for C7 on singleton stores holding the matching record. -/
theorem C7_update_frame_witness :
    projectionUpsert [sampleOldProjection] sampleProjInput =
      [projectionUpdateData sampleProjInput sampleOldProjection] ∧
    (projectionUpdateData sampleProjInput sampleOldProjection).projectionId =
      "pr1" ∧
    (projectionUpdateData sampleProjInput sampleOldProjection).playerName =
      "New Name" ∧
    (projectionUpdateData sampleProjInput sampleOldProjection).homeSpread =
      some (-3) ∧
    nbaPlayerUpsert [samplePlayerOld] samplePlayerNew =
      [⟨"p9", "C", "Lakers", "LeBron James", "t13"⟩] := by
  have h := C7_update_frame
    [sampleOldProjection] sampleProjInput sampleOldProjection
    (by simp) rfl
    [samplePlayerOld] samplePlayerNew samplePlayerOld
    (by simp) rfl
    [sampleGameRow] sampleGameStatData sampleGameRow
    (by simp) rfl rfl
  refine ⟨?_, rfl, rfl, rfl, ?_⟩
  · rw [h.1]
    rfl
  · rw [h.2.2.1]
    rfl

/-- C3: for every batch, batch processing attempts all N records, reports
exactly N-K successes and K failures (K the number of records whose
reconciliation throws), each failure carrying the record's key and the error
description, and the final store is the fold of the successful upserts only —
no successful record is rolled back by the K failures.  Shown for both the
projections batch and the game-stats batch. -/
theorem C3_batch_partial_failure
    (df : ProjInput → Bool) (em : ProjInput → String)
    (sp : List Projection) (rs : List ProjInput)
    (dfg : String × RawGameStat → Bool)
    (emg : String × RawGameStat → String) (playerId : String)
    (sg : List NbaGameStats) (games : List (String × RawGameStat)) :
    (storeProjectionsBatch df em sp rs).2.length = rs.length ∧
    successCount (storeProjectionsBatch df em sp rs).2 =
      rs.length - rs.countP df ∧
    (failureList (storeProjectionsBatch df em sp rs).2).length =
      rs.countP df ∧
    failureList (storeProjectionsBatch df em sp rs).2 =
      (rs.filter df).map
        (fun r => RecordOutcome.err r.projectionId (em r)) ∧
    (storeProjectionsBatch df em sp rs).1 =
      rs.foldl (fun st r => if df r then st else projectionUpsert st r) sp ∧
    (storeGameStatsBatch dfg emg playerId sg games).2.length =
      games.length ∧
    successCount (storeGameStatsBatch dfg emg playerId sg games).2 =
      games.length - games.countP dfg ∧
    (failureList (storeGameStatsBatch dfg emg playerId sg games).2).length =
      games.countP dfg ∧
    failureList (storeGameStatsBatch dfg emg playerId sg games).2 =
      (games.filter dfg).map
        (fun e => RecordOutcome.err e.1 (emg e)) ∧
    (storeGameStatsBatch dfg emg playerId sg games).1 =
      games.foldl
        (fun st e => if dfg e then st
          else nbaGameStatsUpsert st (gameStatData e.1 playerId e.2)) sg := by
  have hP : storeProjectionsBatch df em sp rs =
      (rs.foldl (fun st r => if df r then st else projectionUpsert st r) sp,
       rs.map (fun r => if df r
         then RecordOutcome.err r.projectionId (em r)
         else RecordOutcome.ok r.projectionId)) := by
    unfold storeProjectionsBatch
    rw [processBatch_spec]
  have hG : storeGameStatsBatch dfg emg playerId sg games =
      (games.foldl (fun st e => if dfg e then st
         else nbaGameStatsUpsert st (gameStatData e.1 playerId e.2)) sg,
       games.map (fun e => if dfg e
         then RecordOutcome.err e.1 (emg e)
         else RecordOutcome.ok e.1)) := by
    unfold storeGameStatsBatch
    rw [processBatch_spec]
  rw [hP, hG]
  refine ⟨batch_results_length df
      (fun r => RecordOutcome.ok r.projectionId)
      (fun r => RecordOutcome.err r.projectionId (em r)) rs,
    batch_success_count df
      (fun r => RecordOutcome.ok r.projectionId)
      (fun r => RecordOutcome.err r.projectionId (em r)) rs
      (fun r => rfl) (fun r => rfl),
    ?_,
    batch_failure_list df
      (fun r => RecordOutcome.ok r.projectionId)
      (fun r => RecordOutcome.err r.projectionId (em r)) rs
      (fun r => rfl) (fun r => rfl),
    rfl,
    batch_results_length dfg
      (fun e => RecordOutcome.ok e.1)
      (fun e => RecordOutcome.err e.1 (emg e)) games,
    batch_success_count dfg
      (fun e => RecordOutcome.ok e.1)
      (fun e => RecordOutcome.err e.1 (emg e)) games
      (fun e => rfl) (fun e => rfl),
    ?_,
    batch_failure_list dfg
      (fun e => RecordOutcome.ok e.1)
      (fun e => RecordOutcome.err e.1 (emg e)) games
      (fun e => rfl) (fun e => rfl),
    rfl⟩
  · rw [batch_failure_list df
      (fun r => RecordOutcome.ok r.projectionId)
      (fun r => RecordOutcome.err r.projectionId (em r)) rs
      (fun r => rfl) (fun r => rfl)]
    simp [List.countP_eq_length_filter]
  · rw [batch_failure_list dfg
      (fun e => RecordOutcome.ok e.1)
      (fun e => RecordOutcome.err e.1 (emg e)) games
      (fun e => rfl) (fun e => rfl)]
    simp [List.countP_eq_length_filter]

/-- Splitting a list's length by a predicate. -/
theorem countP_not_add {α : Type} (p : α → Bool) (l : List α) :
    l.countP (fun a => !p a) + l.countP p = l.length := by
  induction l with
  | nil => rfl
  | cons a l ih =>
    cases h : p a <;> simp [List.countP_cons, h] <;> omega

/-- C8: `deleteOldProjections` reads the current instant exactly once (its
single `now` argument, captured at invocation start) and deletes exactly the
stored projections whose `startTime` is strictly earlier than it: every
strictly-earlier row is gone, every row at or after `now` remains (unchanged,
being the same stored record), no other rows appear, the reported count is
the number of strictly-earlier rows, and remaining + deleted = total. -/
theorem C8_delete_old_projections (now : Int) (store : List Projection) :
    (deleteOldProjections now store).1 =
      store.filter (fun p => !decide (p.startTime < now)) ∧
    (∀ p ∈ store, p.startTime < now →
      p ∉ (deleteOldProjections now store).1) ∧
    (∀ p ∈ store, now ≤ p.startTime →
      p ∈ (deleteOldProjections now store).1) ∧
    (∀ p ∈ (deleteOldProjections now store).1, p ∈ store) ∧
    (deleteOldProjections now store).2 =
      store.countP (fun p => decide (p.startTime < now)) ∧
    (deleteOldProjections now store).1.length +
      (deleteOldProjections now store).2 = store.length := by
  refine ⟨rfl, ?_, ?_, ?_, ?_, ?_⟩
  · intro p hp hlt hmem
    have h2 := (List.mem_filter.mp hmem).2
    simp only [Bool.not_eq_true', decide_eq_false_iff_not] at h2
    exact h2 hlt
  · intro p hp hge
    refine List.mem_filter.mpr ⟨hp, ?_⟩
    simp only [Bool.not_eq_true', decide_eq_false_iff_not]
    omega
  · intro p hp
    exact (List.mem_filter.mp hp).1
  · exact (List.countP_eq_length_filter _ _).symm
  · show (store.filter (fun p => !decide (p.startTime < now))).length +
      (store.filter (fun p => decide (p.startTime < now))).length =
      store.length
    rw [← List.countP_eq_length_filter, ← List.countP_eq_length_filter]
    exact countP_not_add _ store

/-- C4: for a game id with at least one matching projection, the enrichment
applies the same patch to every matching row in the one bulk `updateMany`: on
success each matching row becomes `applyOddsData` of its old value (and
non-matching rows are untouched), with the matched count reported; if the
bulk call fails, the whole store keeps its pre-enrichment value and the error
is reported — partial application across the matched set cannot occur. -/
theorem C4_enrich_atomic (nowMs : Int) (msg : String) (gameId : String)
    (odds : OddsData) (store : List Projection)
    (hM : 1 ≤ (store.filter (fun q => q.gameId == gameId)).length) :
    (updateProjectionsWithOdds nowMs none gameId odds store).1 =
      store.map (fun q => if q.gameId == gameId
        then applyOddsData nowMs odds q else q) ∧
    (updateProjectionsWithOdds nowMs none gameId odds store).2 =
      ⟨true, none, none,
        some (store.filter (fun q => q.gameId == gameId)).length⟩ ∧
    updateProjectionsWithOdds nowMs (some msg) gameId odds store =
      (store, ⟨false, none, some msg, none⟩) := by
  have hcond : ¬ ((store.filter (fun q => q.gameId == gameId)).length = 0) :=
    by omega
  refine ⟨?_, ?_, ?_⟩
  · simp only [updateProjectionsWithOdds]
    rw [if_neg hcond]
  · simp only [updateProjectionsWithOdds]
    rw [if_neg hcond]
  · simp only [updateProjectionsWithOdds]
    rw [if_neg hcond]

/-- Witness for C4 on a singleton matching store. -/
theorem C4_enrich_atomic_witness :
    (1 ≤ ([sampleOldProjection].filter
      (fun q => q.gameId == "g1")).length) ∧
    (updateProjectionsWithOdds 0 none "g1" sampleZeroOdds
      [sampleOldProjection]).2 = ⟨true, none, none, some 1⟩ ∧
    updateProjectionsWithOdds 0 (some "write failed") "g1" sampleZeroOdds
      [sampleOldProjection] =
      ([sampleOldProjection], ⟨false, none, some "write failed", none⟩) := by
  have h := C4_enrich_atomic 0 "write failed" "g1" sampleZeroOdds
    [sampleOldProjection] (by decide)
  exact ⟨by decide, h.2.1, h.2.2⟩

/-- C5 (amended): for a game id with zero matching projections,
`updateProjectionsWithOdds` does not throw (it returns normally), creates no
record and modifies no record — the store is returned exactly as it was — and
reports `{success: false, message: "No projections found for this game ID"}`
with no `error` field; the CLI wrapper maps this result to exit code 1, so at
the process level the not-found case is flagged as a failure. -/
theorem C5_no_match_flagged (nowMs : Int) (uf : Option String)
    (gameId : String) (odds : OddsData) (store : List Projection)
    (h0 : store.filter (fun q => q.gameId == gameId) = []) :
    updateProjectionsWithOdds nowMs uf gameId odds store =
      (store, ⟨false, some "No projections found for this game ID",
        none, none⟩) ∧
    cliExitCode (updateProjectionsWithOdds nowMs uf gameId odds store).2 =
      1 := by
  have hc : (store.filter (fun q => q.gameId == gameId)).length = 0 := by
    rw [h0]
    rfl
  have h1 : updateProjectionsWithOdds nowMs uf gameId odds store =
      (store, ⟨false, some "No projections found for this game ID",
        none, none⟩) := by
    simp only [updateProjectionsWithOdds]
    rw [if_pos hc]
  exact ⟨h1, by rw [h1]; rfl⟩

/-- Witness for C5 (amended) on a store whose only row has another game id. -/
theorem C5_no_match_flagged_witness :
    ([sampleOldProjection].filter (fun q => q.gameId == "g2") = []) ∧
    updateProjectionsWithOdds 0 none "g2" sampleZeroOdds
      [sampleOldProjection] =
      ([sampleOldProjection],
       ⟨false, some "No projections found for this game ID", none, none⟩) ∧
    cliExitCode (updateProjectionsWithOdds 0 none "g2" sampleZeroOdds
      [sampleOldProjection]).2 = 1 := by
  have h := C5_no_match_flagged 0 none "g2" sampleZeroOdds
    [sampleOldProjection] (by rfl)
  exact ⟨by rfl, h.1, h.2⟩

/-- C5 counterexample: on a concrete empty store the no-match result is
flagged `success: false` and the CLI exits 1 — refuting the reading that "not
found is not a failure". -/
theorem C5_counterexample :
    (updateProjectionsWithOdds 0 none "g1"
      ⟨none, none, none, none, none, none, none, none, none, none⟩
      []).2.success = false ∧
    cliExitCode (updateProjectionsWithOdds 0 none "g1"
      ⟨none, none, none, none, none, none, none, none, none, none⟩
      []).2 = 1 := by
  exact ⟨rfl, rfl⟩

/-- C6 counterexample: for a game stat whose `pts` is the non-numeric string
"abc", `parseFloat` yields `NaN` and the built record stores the number `NaN`
for that field, not a null/missing value — refuting "a coercion failure
produces a null/missing value for that field". -/
theorem C6_counterexample :
    parseFloat sampleBadRawGameStat.pts = JsNum.nan ∧
    (gameStatData "g1" "p9" sampleBadRawGameStat).points =
      some JsNum.nan ∧
    (gameStatData "g1" "p9" sampleBadRawGameStat).points ≠ none := by
  refine ⟨rfl, rfl, by simp [gameStatData]⟩

/-- C6 (amended): each numeric field arriving as a string is explicitly
coerced with `parseFloat`; when the coercion of one field fails, that field
is stored as the number `NaN` (a present value, not null/missing), the
remaining fields of the record are still processed (they get their own
coercions and pass-throughs), and the per-record upsert still proceeds to
completion as a unit (after it, exactly one row exists for the key). -/
theorem C6_coercion_yields_nan (gid pid : String) (g : RawGameStat)
    (store : List NbaGameStats)
    (hbad : parseFloat g.pts = JsNum.nan)
    (huniq : store.countP (fun q => q.data.gameId == gid &&
      q.data.playerId == pid) ≤ 1) :
    (gameStatData gid pid g).points = some JsNum.nan ∧
    (gameStatData gid pid g).points ≠ none ∧
    (gameStatData gid pid g).rebounds = some (parseFloat g.reb) ∧
    (gameStatData gid pid g).assists = some (parseFloat g.ast) ∧
    (gameStatData gid pid g).team = g.team ∧
    (gameStatData gid pid g).playerName = g.longName ∧
    (nbaGameStatsUpsert store (gameStatData gid pid g)).countP
      (fun q => q.data.gameId == gid && q.data.playerId == pid) = 1 := by
  refine ⟨?_, ?_, rfl, rfl, rfl, rfl, ?_⟩
  · show some (parseFloat g.pts) = some JsNum.nan
    rw [hbad]
  · show some (parseFloat g.pts) ≠ none
    simp
  · exact prismaUpsert_count
      (fun q => q.data.gameId == gid && q.data.playerId == pid)
      (gameStatUpdateData (gameStatData gid pid g))
      (gameStatCreateData (gameStatData gid pid g)) store
      (fun a ha => by simp [gameStatUpdateData, gameStatData])
      (by simp [gameStatCreateData, gameStatData]) huniq

/-- Witness for C6 (amended) on the concrete malformed record. -/
theorem C6_coercion_yields_nan_witness :
    parseFloat sampleBadRawGameStat.pts = JsNum.nan ∧
    (([] : List NbaGameStats).countP (fun q => q.data.gameId == "g1" &&
      q.data.playerId == "p9") ≤ 1) ∧
    (gameStatData "g1" "p9" sampleBadRawGameStat).points =
      some JsNum.nan ∧
    (gameStatData "g1" "p9" sampleBadRawGameStat).rebounds =
      some (parseFloat sampleBadRawGameStat.reb) ∧
    (nbaGameStatsUpsert [] (gameStatData "g1" "p9" sampleBadRawGameStat)
      ).countP (fun q => q.data.gameId == "g1" &&
        q.data.playerId == "p9") = 1 := by
  have h := C6_coercion_yields_nan "g1" "p9" sampleBadRawGameStat []
    (by rfl) (by simp)
  exact ⟨by rfl, by simp, h.1, h.2.2.1, h.2.2.2.2.2.2⟩

/-- C10: the coercion pattern `parseFloat(x) || null` used for `homeSpread`,
`awaySpread`, `totalOver` and `totalUnder` maps a value that coerces to the
number 0 (such as the string "0") to null, indistinguishable from a
non-numeric value ("abc") or an absent one: whenever the odds payload holds
such a value in one of those fields, every projection updated by the
enrichment stores null for that field. -/
theorem C10_zero_coerced_to_null (s : String) (odds : OddsData)
    (nowMs : Int) (gameId : String) (store : List Projection)
    (hzero : parseFloat (some s) = JsNum.num 0) :
    jsNumOrNull (parseFloat (some s)) = none ∧
    jsNumOrNull (parseFloat (some "abc")) = none ∧
    jsNumOrNull (parseFloat none) = none ∧
    (odds.homeSpread = some s →
      ∀ r ∈ (updateProjectionsWithOdds nowMs none gameId odds store).1,
        r.gameId = gameId → r.homeSpread = none) ∧
    (odds.awaySpread = some s →
      ∀ r ∈ (updateProjectionsWithOdds nowMs none gameId odds store).1,
        r.gameId = gameId → r.awaySpread = none) ∧
    (odds.totalOver = some s →
      ∀ r ∈ (updateProjectionsWithOdds nowMs none gameId odds store).1,
        r.gameId = gameId → r.totalOver = none) ∧
    (odds.totalUnder = some s →
      ∀ r ∈ (updateProjectionsWithOdds nowMs none gameId odds store).1,
        r.gameId = gameId → r.totalUnder = none) := by
  have hnull : jsNumOrNull (parseFloat (some s)) = none := by
    rw [hzero]
    simp [jsNumOrNull]
  have main : ∀ r ∈ (updateProjectionsWithOdds nowMs none gameId odds
      store).1, r.gameId = gameId →
      ∃ q, r = applyOddsData nowMs odds q := by
    intro r hr hg
    simp only [updateProjectionsWithOdds] at hr
    by_cases hlen : (store.filter (fun q => q.gameId == gameId)).length = 0
    · rw [if_pos hlen] at hr
      have hnil : store.filter (fun q => q.gameId == gameId) = [] :=
        List.length_eq_zero.mp hlen
      have := List.filter_eq_nil_iff.mp hnil r hr
      simp [hg] at this
    · rw [if_neg hlen] at hr
      rcases List.mem_map.mp hr with ⟨q, hq, hrq⟩
      by_cases hqg : (q.gameId == gameId) = true
      · rw [if_pos hqg] at hrq
        exact ⟨q, hrq.symm⟩
      · rw [if_neg hqg] at hrq
        rw [← hrq] at hg
        simp [hg] at hqg
  refine ⟨hnull, by rfl, by rfl, ?_, ?_, ?_, ?_⟩ <;>
    intro hf r hr hg <;>
    rcases main r hr hg with ⟨q, rfl⟩
  · show jsNumOrNull (parseFloat odds.homeSpread) = none
    rw [hf]
    exact hnull
  · show jsNumOrNull (parseFloat odds.awaySpread) = none
    rw [hf]
    exact hnull
  · show jsNumOrNull (parseFloat odds.totalOver) = none
    rw [hf]
    exact hnull
  · show jsNumOrNull (parseFloat odds.totalUnder) = none
    rw [hf]
    exact hnull

/-- Witness for C10 with the string "0" in every coerced odds field against
a singleton matching store. -/
theorem C10_zero_coerced_to_null_witness :
    parseFloat (some "0") = JsNum.num 0 ∧
    jsNumOrNull (parseFloat (some "0")) = none ∧
    jsNumOrNull (parseFloat (some "abc")) = none ∧
    (applyOddsData 0 sampleZeroOdds sampleOldProjection).homeSpread =
      none := by
  have h := C10_zero_coerced_to_null "0" sampleZeroOdds 0 "g1"
    [sampleOldProjection] (by rfl)
  have hmem : applyOddsData 0 sampleZeroOdds sampleOldProjection ∈
      (updateProjectionsWithOdds 0 none "g1" sampleZeroOdds
        [sampleOldProjection]).1 := by
    rw [show (updateProjectionsWithOdds 0 none "g1" sampleZeroOdds
      [sampleOldProjection]).1 =
      [applyOddsData 0 sampleZeroOdds sampleOldProjection] from rfl]
    exact List.mem_singleton.mpr rfl
  exact ⟨by rfl, h.1, h.2.1,
    h.2.2.2.1 rfl (applyOddsData 0 sampleZeroOdds sampleOldProjection)
      hmem rfl⟩
